import Mathlib

/-!
Verification of the snapshot-based reward backend (rays8417/backend).

This file gives a shallow embedding, in Lean 4, of the parts of the source
that decide the specification claims about the snapshot / reward pipeline:

* `src/blockchain/adapters/solana.adapter.ts` — holder queries
  (`getTokenHoldersForPlayer`, `getTokenHoldersWithBalances`) and the
  `transferTokens` routine;
* `src/controllers/users.controller.ts` — `transferRewardsToUsers`,
  `calculateTransferSummary`, `distributeSnapshotBasedRewards`,
  `processReward`, `updateRewardStatus`;
* `src/config/reward.config.ts` — `REWARD_CONFIG`, `parseIgnoredAddresses`;
* the Prisma migration (snapshot and reward-pool uniqueness constraints).

External effects (RPC queries, the database, the transfer ledger) are made
explicit: each embedded function takes the responses of the outside world as
function-typed parameters and returns its observable result, together with an
ordered trace of the effects it performed where the ordering matters.

The reward-calculation service (`calculateRewardsFromSnapshots`) and the
snapshot service (`createContractSnapshot`) are referenced by the controllers
but their implementation files are not part of the sources; the definitions
for those two are modelled from the specification text and are marked as such
in their doc comments.
-/

namespace Backend

/-- Lowercase of a string, embedding JavaScript `toLowerCase` as used on
base58 address strings: each character is lowercased. -/
def toLowerStr (s : String) : String := String.mk (s.data.map Char.toLower)

/-- Whitespace trim of a string, embedding JavaScript `trim` as used on the
ignored-address environment entries: leading and trailing whitespace
characters are removed. -/
def trimStr (s : String) : String :=
  String.mk (((s.data.dropWhile Char.isWhitespace).reverse.dropWhile
    Char.isWhitespace).reverse)

/-- The AMM program-derived address from `solana.adapter.ts` (`AMM_PDA`). -/
def AMM_PDA : String := "4ZnuhoWp9csaEm8LZeeNgbgXQ6tHoz4yTw3feA6DiH1e"

/-- The liquidity-pool addresses from `solana.adapter.ts`
(`PLAYER_POOL_ADDRESSES`); protocol-owned, never counted as holders. -/
def PLAYER_POOL_ADDRESSES : List String :=
  [ "JDD9WuLPq234fFRSPZqmUySaF8ie3PDFDQNgJg2Y9J7T"
  , "C8mafYpr8jonN5chS9pxix3cMWBEfgJ2YQxgGssiXoP5"
  , "4NjCSE89Pyq1cdWfygtXoj1YukDu8kPRXr31cB8Pud8e"
  , "BwrRH1WZsSH1MdHzpAeErGCp8bkXtp3GQWCwwRhzuBwe"
  , "Cb7dSXQE7ZnzhGR7t3u4fGfM9jHL67XXnpgukMB4ZVuS"
  , "DKyPdCj9whq8MduqiNUcM9xVAsoWR89jAsdUFhRUsetJ"
  , "8R8yWsHRP3CXLDNf633hBrw2PyFoNJz2Q8SrT24JXxor"
  , "BhCEGn2mpaBGU3sD6Ma5rPfFuoHeJC2554JCpLtg9H3u"
  , "9eMF3Bzq4dJ5teoo5GBYM45xrKZ26MkMhiuzWrUdJWpc"
  , "EnEyhg12Cm6NPvr4jbVtYCpv5snGZCF4bWmRdaC7rvNJ"
  , "DdkpLNQ1S2SwoWgvajHvQHkraYBLk6q8sfSBrguckFxz"
  , "3B2UiTvsxQDF3t96UHhS9upHQ4WtjbzkHH26vGDLd7hg"
  , "9UWymQ4XLaCuyZpuxjup36z2FmZ1dsRSfXYNvLwSqAcG"
  , "Bxdq1cGXVj9NNzbak3vVDYqAu3cjjzPuKEVhVNzA3WRi"
  , "EaZ9m6p2wa8ZKkkq7SaBpCz4uaAS4SdsrqgUgeJYcyKW"
  , "CFeJ9t2cMkUW7WNEyeQyriFjjd4xvpV6z36rw6YRepcF"
  , "6exJH9dLUXTVBLMrZ9hoAvynbBNYhreSNKMMLHhrbesW"
  , "4YgXZzaWJohMaZ8dJJaWVBibEG3J5txX9A5YJ4Q49W1E"
  , "Dmbi9NfSAXMEmTdBvmCkX5UAUa5kSE6wWseEPpUCD15E"
  , "AxkmS9mFsf1dEN3fENWQW1UYEuPcQ1BG2tUd1qqLG3bj"
  , "26K4GTuhGEFFmwwXpNfiwxc6b8xSmgSkAB6XpWYkpYzH"
  , "BCvQHZDNCZUojZuszFy8kumkg1W3Hjnfs5eXJtqL9nRR"
  , "BrMpcXBEGs4CStAQLC1QegkkWuyduQKDLFq5VsKtCPZL"
  , "GBN2YumWRGAPAwZbywd2Q5txpRgwpLn7MB5FqLD86rCP"
  , "3skaq6tdwJsF8k4Q7yHeCyUZ75wR7K9DsqoHHLoBiDeL" ]

/-- The player-module to mint-address table from `solana.adapter.ts`
(`PLAYER_TOKEN_MINTS`). -/
def PLAYER_TOKEN_MINTS : List (String × String) :=
  [ ("Boson", "GgbSCKBofx3M93prUJxpYtZqYziLBbpY7QDrmyXdPqUa")
  , ("ShubhmanGill", "E4ixLqAcjioCVTBhW9VQxpCFHhJFnwyMVYTZJyzWQaar")
  , ("BenStokes", "5qBqQyobhK9rMYcK5PnwmWUY2GYpuVeqHfPpu4mAJ3rD")
  , ("TravisHead", "2yqdx8tQukCHHJiCUsNKGq1mXA9BEmkxSGiouE3u9SSV")
  , ("GlenMaxwell", "6mWJRGNUnjbvoqVmP5UoPRYUK7t4zrBiUY4pHBKrbuK8")
  , ("ShubhamDube", "By8cEkVw6wNw4uJWb5PFNS6PyYma2wXZz49ZB6jeJhKo")
  , ("HardikPandya", "7o6rdp5eabo3xhAq9Roqh46aaGDygevrttmMiNgDHcgJ")
  , ("KaneWilliamson", "A8VE2H3X862wRA2YbZKto3STPXx8hcWAg6pbe41UbGCo")
  , ("AbhishekSharma", "2v49DpyAKD8mxebQ2jes4RvidoybZzfDVRg29vL5yZNL")
  , ("JaspreetBumhrah", "9CLC1mmqKxqYSaN7ywgKKwDdxWqUJFqr8KWeuDikW2TN")
  , ("SuryakumarYadav", "6AgRnebp5spiBr4VXxJRcYMrjozturT1feLPSTx79kpT")
  , ("ViratKohli", "5FhMPnCjrTT56gZfGb7TAupCnRVPpkRZAhG8xkrLfGos")
  , ("JoeRoot", "3oDpdwng8fvWFhCUpDzvvt6xeee4WHsDozqb2QJLiLGX")
  , ("HarryBrook", "4gfPzmZSneYdN1UwTTNJA4jKLyf4DQ5mcxcsPSoUy9b2")
  , ("YashasviJaiswal", "7VTyZcWcdeWZBPEcLzEodsGRWruvSWzTS8cT6HQKoBK9")
  , ("RishabhPant", "CuBFQd57LgfHikAdTVnQrgnFdrsseF78xnrnKVjDoX4z")
  , ("RohitSharma", "4pc1TzZM2o5yxATMbQPuzBRVMqf8VtMh3kugPai1iVGm")
  , ("KLRahul", "CiYbhHcUcFn14EJLJzFj1jnbjaw3e5MZQoVfBPdFH4Tr")
  , ("JosButtler", "3g57ThxyBLzekz6wYZDpx93Kp96R8bbkmbKX3JQah1L4")
  , ("JoshInglis", "9e3A3uPRxjVtdy8i3J3vF84rRURS4mj9JipkRRrxRvya")
  , ("WashingtonSundar", "FUFyqx1DBK9TkMtmuwkcQqetvrb3nx67YtVbgBi9MzGB")
  , ("ShaiHope", "21pYFJLWdStBa9qB2QhgDD49iJXNqSxgnN19qduuR1GK")
  , ("JohnCampbell", "8cpq5bWEoMYghki8D7DyJ25NaD6cjuSnJtbR3tWCeCfh")
  , ("KharyPierre", "7uQQwoYigCfvh18rdbSqixbJ8imQV2b6ou3MTwrzmH5a")
  , ("MohammedSiraj", "253unST1UwE1Ykg3BWF68iGajhzAkajzQKNQU4QueR2P")
  , ("AlickAthanaze", "9LS4Prb6wS8TpjjztkWVRG2k81NPbpuhwZEXcv1qff43") ]

/-- `parseIgnoredAddresses` from `reward.config.ts`: split entries of the
environment variable, trimmed, lowercased, empties dropped. The comma-split
raw entries are the `envRaw` parameter. -/
def parseIgnoredAddresses (envRaw : List String) : List String :=
  (envRaw.map (fun v => toLowerStr (trimStr v))).filter (fun v => v ≠ "")

/-- `IGNORED_ADDRESS_SET` from `solana.adapter.ts`: configured ignored
addresses plus the AMM PDA plus every player pool address, all lowercased.
Membership is what the adapter tests, so a list models the JS `Set`. -/
def IGNORED_ADDRESS_SET (envRaw : List String) : List String :=
  parseIgnoredAddresses envRaw ++
    [toLowerStr AMM_PDA] ++ PLAYER_POOL_ADDRESSES.map toLowerStr

/-- The `parsed.info` payload of one RPC token account: owner address, the
`uiAmount` field and the raw integer `amount`. -/
structure ParsedAccountInfo where
  owner : String
  uiAmount : ℚ
  amount : Nat
deriving DecidableEq, Repr

/-- One account returned by `getParsedProgramAccounts`; `parsed` is `none`
when the RPC data has no parsed info. -/
structure RawAccount where
  parsed : Option ParsedAccountInfo
deriving DecidableEq, Repr

/-- A holder entry as built by the adapter (`TokenHolder` in
`IBlockchainService`); the presentation-only `formattedBalance` string is
omitted. -/
structure TokenHolder where
  address : String
  balance : Nat
  playerId : String
  moduleName : String
deriving DecidableEq, Repr

/-- First value bound to a key in an association list (the map lookups of the
source). -/
def alistLookup {α : Type} (l : List (String × α)) (k : String) : Option α :=
  match l with
  | [] => none
  | (k₂, v) :: rest => if k₂ = k then some v else alistLookup rest k

/-- The per-account body of the holder loop in `getTokenHoldersForPlayer`
(`solana.adapter.ts`): require parsed info, a positive `uiAmount` or `amount`,
an owner outside the ignored set, and an owner accepted by the PublicKey
constructor (the `validKey` oracle). -/
def holderOfAccount (validKey : String → Bool) (ignored : List String)
    (playerModule : String) (playerId : Option String) (acct : RawAccount) :
    Option TokenHolder :=
  match acct.parsed with
  | none => none
  | some info =>
    if 0 < info.uiAmount ∨ 0 < info.amount then
      if ignored.contains (toLowerStr info.owner) then none
      else if validKey info.owner then
        some { address := info.owner, balance := info.amount,
               playerId := playerId.getD playerModule,
               moduleName := playerModule }
      else none
    else none

/-- `getTokenHoldersForPlayer` from `solana.adapter.ts`: look up the mint for
the module, query the RPC (`q`), and filter the returned accounts. Any RPC
error, and an unknown module, yield the empty list (the source catches and
returns `[]`). -/
def getTokenHoldersForPlayer (validKey : String → Bool) (ignored : List String)
    (mints : List (String × String))
    (q : String → Except String (List RawAccount))
    (playerModule : String) (playerId : Option String) : List TokenHolder :=
  match alistLookup mints playerModule with
  | none => []
  | some _ =>
    match q playerModule with
    | Except.error _ => []
    | Except.ok accounts =>
      accounts.filterMap (holderOfAccount validKey ignored playerModule playerId)

/-- The module list iterated by `getTokenHoldersWithBalances`: the keys of
the mint table, with the Boson game token excluded. -/
def playerModulesOf (mints : List (String × String)) : List String :=
  (mints.map Prod.fst).filter (fun m => m ≠ "Boson")

/-- `getTokenHoldersWithBalances` from `solana.adapter.ts`: for the i-th
player module, collect `getTokenHoldersForPlayer` with playerId `(i+1)`;
a per-module failure is caught and the loop continues (and inside
`getTokenHoldersForPlayer` an RPC error already becomes `[]`). The return
value is only the concatenated holder list. -/
def getTokenHoldersWithBalances (validKey : String → Bool)
    (ignored : List String) (mints : List (String × String))
    (q : String → Except String (List RawAccount)) : List TokenHolder :=
  (playerModulesOf mints).enum.flatMap (fun p =>
    getTokenHoldersForPlayer validKey ignored mints q p.2 (some (toString (p.1 + 1))))

/-- Every holder produced by `getTokenHoldersForPlayer` survived the
ignored-address test on its lowercased owner. -/
theorem mem_holders_not_ignored (validKey : String → Bool)
    (ignored : List String) (mints : List (String × String))
    (q : String → Except String (List RawAccount))
    (playerModule : String) (playerId : Option String) (h : TokenHolder)
    (hm : h ∈ getTokenHoldersForPlayer validKey ignored mints q playerModule playerId) :
    ¬ (toLowerStr h.address ∈ ignored) := by
  unfold getTokenHoldersForPlayer at hm
  rcases hlk : alistLookup mints playerModule with _ | mint
  · rw [hlk] at hm; simp at hm
  · rw [hlk] at hm
    rcases hq : q playerModule with e | accounts
    · rw [hq] at hm; simp at hm
    · rw [hq] at hm
      rcases List.mem_filterMap.mp hm with ⟨acct, -, hsome⟩
      rcases hp : acct.parsed with _ | info
      · simp [holderOfAccount, hp] at hsome
      · simp [holderOfAccount, hp] at hsome
        obtain ⟨-, hni, -, hrec⟩ := hsome
        subst hrec
        simpa using hni

/-- Lowercasing never turns a non-empty string into the empty string. -/
theorem toLowerStr_ne_empty {s : String} (h : s ≠ "") : toLowerStr s ≠ "" := by
  intro he
  apply h
  have hdata : s.data.map Char.toLower = [] := by
    have := congrArg String.data he
    simpa [toLowerStr] using this
  have hd : s.data = [] := List.map_eq_nil_iff.mp hdata
  apply String.ext
  simpa using hd

/-- C5: for every token queried, the holder list built for snapshots never
contains a configured infrastructure address — not the AMM PDA, not a player
pool address, and not a configured ignored address — even when the raw
ledger query returns such an address with a non-zero balance (the `q` oracle
is unconstrained). -/
theorem C5_holder_lists_exclude_infrastructure
    (validKey : String → Bool) (envRaw : List String)
    (mints : List (String × String))
    (q : String → Except String (List RawAccount))
    (playerModule : String) (playerId : Option String) :
    (∀ h ∈ getTokenHoldersForPlayer validKey (IGNORED_ADDRESS_SET envRaw)
        mints q playerModule playerId,
      toLowerStr h.address ∉ IGNORED_ADDRESS_SET envRaw ∧
      h.address ≠ AMM_PDA ∧
      h.address ∉ PLAYER_POOL_ADDRESSES ∧
      ∀ v ∈ envRaw, trimStr v ≠ "" → h.address ≠ trimStr v) := by
  intro h hm
  have hni := mem_holders_not_ignored validKey (IGNORED_ADDRESS_SET envRaw)
    mints q playerModule playerId h hm
  refine ⟨hni, ?_, ?_, ?_⟩
  · intro he
    apply hni
    rw [he]
    simp [IGNORED_ADDRESS_SET]
  · intro hp
    apply hni
    simp only [IGNORED_ADDRESS_SET, List.mem_append]
    exact Or.inr (List.mem_map.mpr ⟨h.address, hp, rfl⟩)
  · intro v hv hvne he
    apply hni
    simp only [IGNORED_ADDRESS_SET, List.mem_append]
    refine Or.inl (Or.inl ?_)
    unfold parseIgnoredAddresses
    refine List.mem_filter.mpr ⟨List.mem_map.mpr ⟨v, hv, by rw [he]⟩, ?_⟩
    simpa using toLowerStr_ne_empty (by rw [he]; exact hvne)

/-- A concrete RPC response used to witness C5: the raw query for module P1
returns a genuine user, the AMM PDA, the Ben Stokes pool address and a
configured ignored address, all with non-zero balances. -/
def c5query : String → Except String (List RawAccount) := fun m =>
  if m = "P1" then
    Except.ok
      [ { parsed := some { owner := "UserAddrOne", uiAmount := 1, amount := 5 } }
      , { parsed := some { owner := AMM_PDA, uiAmount := 2, amount := 7 } }
      , { parsed := some { owner := "JDD9WuLPq234fFRSPZqmUySaF8ie3PDFDQNgJg2Y9J7T",
                           uiAmount := 3, amount := 9 } }
      , { parsed := some { owner := "IgnoredAddr", uiAmount := 4, amount := 11 } } ]
  else Except.ok []

theorem C5_holder_lists_exclude_infrastructure_witness :
    ({ address := "UserAddrOne", balance := 5, playerId := "P1",
       moduleName := "P1" } : TokenHolder).address ≠ AMM_PDA ∧
    getTokenHoldersForPlayer (fun _ => true)
      (IGNORED_ADDRESS_SET ["IgnoredAddr"]) [("P1", "Mint1")] c5query "P1" none =
      [{ address := "UserAddrOne", balance := 5, playerId := "P1",
         moduleName := "P1" }] := by
  constructor
  · exact (C5_holder_lists_exclude_infrastructure (fun _ => true) ["IgnoredAddr"]
      [("P1", "Mint1")] c5query "P1" none _ (by decide)).2.1
  · decide

/-- Pointwise-equal functions give equal flatMaps. -/
theorem flatMap_congr_fun {α β : Type} {l : List α} {f g : α → List β}
    (h : ∀ a ∈ l, f a = g a) : l.flatMap f = l.flatMap g := by
  induction l with
  | nil => rfl
  | cons x xs ih =>
    simp only [List.flatMap_cons]
    rw [h x (by simp), ih (fun a ha => h a (by simp [ha]))]

/-- Point update of a query oracle at one module name. -/
def updateQuery (q : String → Except String (List RawAccount)) (m : String)
    (r : Except String (List RawAccount)) :
    String → Except String (List RawAccount) :=
  fun x => if x = m then r else q x

/-- The number of per-token holder queries that failed; the adapter logs
these but its return value is only the holder list. -/
def failedQueryCount (q : String → Except String (List RawAccount))
    (mints : List (String × String)) : Nat :=
  ((playerModulesOf mints).filter (fun m =>
    match q m with
    | Except.error _ => true
    | Except.ok _ => false)).length

/-- Concrete fixture for C9: two configured player tokens A and B. -/
def c9mints : List (String × String) := [("A", "MA"), ("B", "MB")]

/-- Concrete fixture for C9: the single token account held for module B. -/
def c9acct : RawAccount :=
  { parsed := some { owner := "UserB", uiAmount := 1, amount := 3 } }

/-- Concrete fixture for C9: the query for module A fails, B succeeds. -/
def c9query1 : String → Except String (List RawAccount) := fun m =>
  if m = "A" then Except.error "rpc failure" else Except.ok [c9acct]

/-- Concrete fixture for C9: the query for module A returns no holders,
B succeeds as before. -/
def c9query2 : String → Except String (List RawAccount) := fun m =>
  if m = "A" then Except.ok [] else Except.ok [c9acct]

/-- C9 counterexample: a capture in which module A's ledger query fails is
not aborted (module B's holder is still returned), but the run where A
failed and the run where A genuinely has zero holders produce the very same
return value, while their failed-query counts differ (1 versus 0): the
capture surfaces no count of failed tokens to the caller, refuting the
second half of the claim. -/
theorem C9_counterexample_no_failure_count_surfaced :
    getTokenHoldersWithBalances (fun _ => true) [] c9mints c9query1 =
      getTokenHoldersWithBalances (fun _ => true) [] c9mints c9query2 ∧
    getTokenHoldersWithBalances (fun _ => true) [] c9mints c9query1 =
      [{ address := "UserB", balance := 3, playerId := "2", moduleName := "B" }] ∧
    failedQueryCount c9query1 c9mints = 1 ∧
    failedQueryCount c9query2 c9mints = 0 := by
  refine ⟨by decide, by decide, by decide, by decide⟩

/-- C9 amended: a query failure for one token does not abort the capture —
every holder returned by a succeeding module query is still included in the
result — but the capture is indistinguishable from one in which the failing
token simply has no holders, so no count of failed queries is surfaced. -/
theorem C9_amended_failure_isolated_no_count
    (validKey : String → Bool) (ignored : List String)
    (mints : List (String × String))
    (q : String → Except String (List RawAccount)) (m : String) (e : String)
    (hfail : q m = Except.error e) :
    getTokenHoldersWithBalances validKey ignored mints q =
      getTokenHoldersWithBalances validKey ignored mints
        (updateQuery q m (Except.ok [])) ∧
    (∀ p ∈ (playerModulesOf mints).enum,
      ∀ h ∈ getTokenHoldersForPlayer validKey ignored mints q p.2
          (some (toString (p.1 + 1))),
        h ∈ getTokenHoldersWithBalances validKey ignored mints q) := by
  constructor
  · unfold getTokenHoldersWithBalances
    apply flatMap_congr_fun
    intro p _
    by_cases hpm : p.2 = m
    · unfold getTokenHoldersForPlayer
      rcases alistLookup mints p.2 with _ | mint
      · rfl
      · rw [hpm, hfail]
        simp [updateQuery]
    · unfold getTokenHoldersForPlayer
      have : updateQuery q m (Except.ok []) p.2 = q p.2 := by
        simp [updateQuery, hpm]
      rw [this]
  · intro p hp h hm
    unfold getTokenHoldersWithBalances
    exact List.mem_flatMap.mpr ⟨p, hp, hm⟩

theorem C9_amended_failure_isolated_no_count_witness :
    getTokenHoldersWithBalances (fun _ => true) [] c9mints c9query1 =
      getTokenHoldersWithBalances (fun _ => true) [] c9mints
        (updateQuery c9query1 "A" (Except.ok [])) ∧
    ({ address := "UserB", balance := 3, playerId := "2",
       moduleName := "B" } : TokenHolder) ∈
      getTokenHoldersWithBalances (fun _ => true) [] c9mints c9query1 := by
  have h := C9_amended_failure_isolated_no_count (fun _ => true) [] c9mints
    c9query1 "A" "rpc failure" (by rfl)
  refine ⟨h.1, h.2 (1, "B") (by decide) _ (by decide)⟩

/-- `TransferResult` from `IBlockchainService`. -/
structure TransferResult where
  success : Bool
  transactionHash : String
  explorerUrl : String
  error : Option String
deriving DecidableEq, Repr

/-- `REWARD_CONFIG.MIN_REWARD_AMOUNT` from `reward.config.ts`:
0.001 BOSON, the dust threshold. -/
def MIN_REWARD_AMOUNT : ℚ := mkRat 1 1000

/-- `REWARD_CONFIG.BOSON_DECIMALS` from `reward.config.ts` (default 9). -/
def BOSON_DECIMALS : Nat := 9

/-- One entry of the calculator output consumed by the transfer loop; fields
beyond the address and the BOSON amount are carried through unchanged and are
omitted here. -/
structure RewardCalc where
  address : String
  rewardAmount : ℚ
deriving DecidableEq, Repr

/-- The per-recipient status strings pushed by `transferRewardsToUsers`. -/
inductive TransferStatus
  | success
  | failed
  | skipped
deriving DecidableEq, Repr

/-- One element of the `transferResults` array built by
`transferRewardsToUsers`. -/
structure TransferRecord where
  address : String
  rewardAmount : ℚ
  status : TransferStatus
  transactionId : Option String
  reason : Option String
  errorMsg : Option String
deriving DecidableEq, Repr

/-- BOSON-to-base-units conversion in `transferRewardsToUsers`:
`Math.floor(rewardAmount * 10 ** BOSON_DECIMALS)`. The product with the
power of ten is written on the numerator so that the definition evaluates
inside the kernel (`mkRat (num * 10 ^ d) den` equals the rational product). -/
def toBaseUnits (amount : ℚ) : Nat :=
  (Rat.floor (mkRat (amount.num * (10 ^ BOSON_DECIMALS : ℕ)) amount.den)).toNat

/-- `transferRewardsToUsers` from `users.controller.ts`. The ledger is the
`transfer` oracle (address and base-unit amount of each attempted transfer).
Returns the per-recipient result list and, separately, the ordered list of
transfer calls that were issued. Below-threshold rewards are recorded as
skipped without a call; a non-success result or thrown error is recorded as
failed. -/
def transferRewardsToUsers (transfer : String → Nat → TransferResult) :
    List RewardCalc → List TransferRecord × List (String × Nat)
  | [] => ([], [])
  | rc :: rest =>
    if rc.rewardAmount < MIN_REWARD_AMOUNT then
      let r := transferRewardsToUsers transfer rest
      ({ address := rc.address, rewardAmount := rc.rewardAmount,
         status := TransferStatus.skipped, transactionId := none,
         reason := some "Amount too small", errorMsg := none } :: r.1, r.2)
    else
      let amt := toBaseUnits rc.rewardAmount
      let out := transfer rc.address amt
      let entry :=
        if out.success then
          { address := rc.address, rewardAmount := rc.rewardAmount,
            status := TransferStatus.success,
            transactionId := some out.transactionHash,
            reason := none, errorMsg := none }
        else
          { address := rc.address, rewardAmount := rc.rewardAmount,
            status := TransferStatus.failed, transactionId := none,
            reason := none,
            errorMsg := some ((out.error).getD "Transaction failed") }
      let r := transferRewardsToUsers transfer rest
      (entry :: r.1, (rc.address, amt) :: r.2)

/-- The summary record built by `calculateTransferSummary`. -/
structure TransferSummary where
  totalUsers : Nat
  successful : Nat
  failed : Nat
  skipped : Nat
  totalDistributed : ℚ
  totalRewardPool : ℚ
  successfulTransfers : List TransferRecord
  failedTransfers : List TransferRecord
  skippedTransfers : List TransferRecord
deriving DecidableEq, Repr

/-- `calculateTransferSummary` from `users.controller.ts`. -/
def calculateTransferSummary (transferResults : List TransferRecord)
    (totalRewardAmount : ℚ) : TransferSummary :=
  let succ := transferResults.filter (fun r => r.status == TransferStatus.success)
  let fail := transferResults.filter (fun r => r.status == TransferStatus.failed)
  let skip := transferResults.filter (fun r => r.status == TransferStatus.skipped)
  { totalUsers := transferResults.length
    successful := succ.length
    failed := fail.length
    skipped := skip.length
    totalDistributed := (succ.map TransferRecord.rewardAmount).sum
    totalRewardPool := totalRewardAmount
    successfulTransfers := succ
    failedTransfers := fail
    skippedTransfers := skip }

/-- The transfer loop produces exactly one result per calculator entry, with
the addresses in the same order: no entry is dropped from the output. -/
theorem transferResults_addresses (transfer : String → Nat → TransferResult)
    (rcs : List RewardCalc) :
    (transferRewardsToUsers transfer rcs).1.map TransferRecord.address =
      rcs.map RewardCalc.address := by
  induction rcs with
  | nil => rfl
  | cons rc rest ih =>
    unfold transferRewardsToUsers
    by_cases hlt : rc.rewardAmount < MIN_REWARD_AMOUNT
    · simpa [hlt] using ih
    · by_cases hs : (transfer rc.address (toBaseUnits rc.rewardAmount)).success
      <;> simpa [hlt, hs] using ih

/-- A below-threshold entry is recorded as a skipped result. -/
theorem transferResults_skipped_mem (transfer : String → Nat → TransferResult)
    (rcs : List RewardCalc) (rc : RewardCalc) (hmem : rc ∈ rcs)
    (hlt : rc.rewardAmount < MIN_REWARD_AMOUNT) :
    ({ address := rc.address, rewardAmount := rc.rewardAmount,
       status := TransferStatus.skipped, transactionId := none,
       reason := some "Amount too small", errorMsg := none } : TransferRecord) ∈
      (transferRewardsToUsers transfer rcs).1 := by
  revert hmem
  induction rcs with
  | nil => intro hmem; cases hmem
  | cons x rest ih =>
    intro hmem
    rcases List.mem_cons.mp hmem with rfl | hmem
    · unfold transferRewardsToUsers
      simp [hlt]
    · have hm := ih hmem
      unfold transferRewardsToUsers
      by_cases hx : x.rewardAmount < MIN_REWARD_AMOUNT
      · simp only [hx, if_pos]
        exact List.mem_cons_of_mem _ hm
      · simp only [hx, if_neg, not_false_iff]
        exact List.mem_cons_of_mem _ hm

/-- Every issued transfer call originates from an at-threshold entry. -/
theorem transferCalls_from_entries (transfer : String → Nat → TransferResult)
    (rcs : List RewardCalc) (a : String) (n : Nat)
    (hc : (a, n) ∈ (transferRewardsToUsers transfer rcs).2) :
    ∃ rc ∈ rcs, rc.address = a ∧ ¬ rc.rewardAmount < MIN_REWARD_AMOUNT := by
  revert hc
  induction rcs with
  | nil => intro hc; cases hc
  | cons x rest ih =>
    intro hc
    unfold transferRewardsToUsers at hc
    by_cases hx : x.rewardAmount < MIN_REWARD_AMOUNT
    · simp only [hx, if_pos] at hc
      rcases ih hc with ⟨rc, hrc, hrest⟩
      exact ⟨rc, List.mem_cons_of_mem _ hrc, hrest⟩
    · simp only [hx, if_neg, not_false_iff] at hc
      rcases List.mem_cons.mp hc with hc | hc
      · exact ⟨x, List.mem_cons_self x rest, by simpa using congrArg Prod.fst hc.symm, hx⟩
      · rcases ih hc with ⟨rc, hrc, hrest⟩
        exact ⟨rc, List.mem_cons_of_mem _ hrc, hrest⟩

/-- C8: a reward below `MIN_REWARD_AMOUNT` triggers no ledger transfer for
its entry's address, yet the entry still appears in the result list with
status skipped, is listed among the summary's skippedTransfers, and the
summary's skipped count is the length of that list; no entry is ever dropped
(result addresses equal input addresses, in order). The address-nodup
hypothesis reflects that the calculator emits one entry per address. -/
theorem C8_below_threshold_skipped_not_dropped
    (transfer : String → Nat → TransferResult) (rcs : List RewardCalc)
    (total : ℚ) (rc : RewardCalc) (hmem : rc ∈ rcs)
    (hlt : rc.rewardAmount < MIN_REWARD_AMOUNT)
    (hnodup : (rcs.map RewardCalc.address).Nodup) :
    ((transferRewardsToUsers transfer rcs).1.map TransferRecord.address =
      rcs.map RewardCalc.address) ∧
    ({ address := rc.address, rewardAmount := rc.rewardAmount,
       status := TransferStatus.skipped, transactionId := none,
       reason := some "Amount too small", errorMsg := none } : TransferRecord) ∈
      (transferRewardsToUsers transfer rcs).1 ∧
    rc.address ∉ ((transferRewardsToUsers transfer rcs).2.map Prod.fst) ∧
    ({ address := rc.address, rewardAmount := rc.rewardAmount,
       status := TransferStatus.skipped, transactionId := none,
       reason := some "Amount too small", errorMsg := none } : TransferRecord) ∈
      (calculateTransferSummary (transferRewardsToUsers transfer rcs).1
        total).skippedTransfers ∧
    (calculateTransferSummary (transferRewardsToUsers transfer rcs).1
        total).skipped =
      (calculateTransferSummary (transferRewardsToUsers transfer rcs).1
        total).skippedTransfers.length := by
  have hmemres := transferResults_skipped_mem transfer rcs rc hmem hlt
  refine ⟨transferResults_addresses transfer rcs, hmemres, ?_, ?_, rfl⟩
  · intro hin
    rcases List.mem_map.mp hin with ⟨⟨a, n⟩, hc, ha⟩
    rcases transferCalls_from_entries transfer rcs a n hc with ⟨rc2, hrc2, haddr, hge⟩
    have : rc = rc2 :=
      List.inj_on_of_nodup_map hnodup hmem hrc2 (by rw [haddr]; exact ha.symm)
    exact hge (this ▸ hlt)
  · unfold calculateTransferSummary
    simp only []
    exact List.mem_filter.mpr ⟨hmemres, rfl⟩

/-- Concrete transfer oracle for witnesses: every transfer succeeds. -/
def okTransfer : String → Nat → TransferResult := fun _ _ =>
  { success := true, transactionHash := "sig1", explorerUrl := "", error := none }

/-- Concrete calculator output for the C8 witness: alice is below the
0.001 BOSON threshold, bob is above it. -/
def c8calcs : List RewardCalc :=
  [ { address := "alice", rewardAmount := mkRat 1 2000 }
  , { address := "bob", rewardAmount := mkRat 2 1 } ]

theorem C8_below_threshold_skipped_not_dropped_witness :
    ({ address := "alice", rewardAmount := mkRat 1 2000,
       status := TransferStatus.skipped, transactionId := none,
       reason := some "Amount too small", errorMsg := none } : TransferRecord) ∈
      (transferRewardsToUsers okTransfer c8calcs).1 ∧
    "alice" ∉ ((transferRewardsToUsers okTransfer c8calcs).2.map Prod.fst) := by
  have h := C8_below_threshold_skipped_not_dropped okTransfer c8calcs 5
    { address := "alice", rewardAmount := mkRat 1 2000 }
    (by decide) (by decide) (by decide)
  exact ⟨h.2.1, h.2.2.1⟩

/-- The `UserReward` status enum of the Prisma schema. -/
inductive RewardStatus
  | PENDING
  | PROCESSING
  | COMPLETED
  | FAILED
deriving DecidableEq, Repr

/-- A `user_rewards` row; the reward pool is keyed by its tournament id,
which the schema makes unique per pool. -/
structure UserRewardRow where
  address : String
  rewardPoolTournamentId : String
  amount : ℚ
  status : RewardStatus
  transactionId : Option String
deriving DecidableEq, Repr

/-- A `reward_pools` row (`reward_pools_tournamentId_key` makes
`tournamentId` unique). -/
structure RewardPoolRow where
  tournamentId : String
  totalAmount : ℚ
  distributedAmount : ℚ
deriving DecidableEq, Repr

/-- The reward tables of the persistent store. -/
structure DbState where
  pools : List RewardPoolRow
  rewards : List UserRewardRow
deriving DecidableEq, Repr

/-- The observable effects of one `distributeSnapshotBasedRewards` run, in
the order the controller performs them. -/
inductive DistEvent
  | transferAttempt (address : String) (amountBaseUnits : Nat)
  | createRewardPool (tournamentId : String)
  | createUserReward (address : String) (status : RewardStatus)
deriving DecidableEq, Repr

/-- Whether an event is a ledger transfer attempt. -/
def isTransferEventB : DistEvent → Bool
  | DistEvent.transferAttempt _ _ => true
  | _ => false

/-- The outcome of one `distributeSnapshotBasedRewards` run: the store
afterwards, the ordered effect trace, and whether the HTTP response was the
success payload (`false` covers the 500 error path, in particular the
unique-constraint violation when a RewardPool already exists). -/
structure DistRun where
  db : DbState
  events : List DistEvent
  httpOk : Bool
deriving DecidableEq, Repr

/-- `distributeSnapshotBasedRewards` from `users.controller.ts`, with the
calculator output (`rewardCalculations`), the ledger (`transfer`) and the
tournament-existence check (`tournamentExists`, from `validateTournament`)
as inputs. The controller runs: Step 1 calculation, Step 2 all ledger
transfers, Step 3 the summary, Step 4 `rewardPool.create` — which hits the
`reward_pools_tournamentId_key` unique constraint and throws when a pool for
the tournament already exists, after the transfers have been issued — and
then one `userReward.create` per successful transfer, with status
COMPLETED. -/
def distributeSnapshotBasedRewards (db : DbState)
    (transfer : String → Nat → TransferResult)
    (tournamentId : String) (totalRewardAmount : ℚ)
    (rewardCalculations : List RewardCalc) (tournamentExists : Bool) :
    DistRun :=
  if tournamentExists = false then
    { db := db, events := [], httpOk := false }
  else
    let tr := transferRewardsToUsers transfer rewardCalculations
    let summary := calculateTransferSummary tr.1 totalRewardAmount
    let transferEvents := tr.2.map (fun c => DistEvent.transferAttempt c.1 c.2)
    if db.pools.any (fun p => p.tournamentId == tournamentId) then
      { db := db, events := transferEvents, httpOk := false }
    else
      { db :=
          { pools :=
              { tournamentId := tournamentId,
                totalAmount := totalRewardAmount,
                distributedAmount := summary.totalDistributed } :: db.pools
            rewards := db.rewards ++ summary.successfulTransfers.map (fun r =>
              { address := r.address,
                rewardPoolTournamentId := tournamentId,
                amount := r.rewardAmount,
                status := RewardStatus.COMPLETED,
                transactionId := r.transactionId }) }
        events := transferEvents ++
          [DistEvent.createRewardPool tournamentId] ++
          summary.successfulTransfers.map (fun r =>
            DistEvent.createUserReward r.address RewardStatus.COMPLETED)
        httpOk := true }

/-- Pre-state for C1: tournament T1 already has its RewardPool, and the
pool's only UserReward (alice) is COMPLETED. -/
def reinvokeDb : DbState :=
  { pools := [{ tournamentId := "T1", totalAmount := mkRat 100 1,
                distributedAmount := mkRat 100 1 }]
    rewards := [{ address := "alice", rewardPoolTournamentId := "T1",
                  amount := mkRat 100 1, status := RewardStatus.COMPLETED,
                  transactionId := some "sig0" }] }

/-- The calculator output used for the C1 and C2 runs: alice gets the whole
100 BOSON pool. -/
def distCalcs : List RewardCalc :=
  [{ address := "alice", rewardAmount := mkRat 100 1 }]

/-- C1, failing input: re-invoking distribute for tournament T1 — whose
RewardPool exists and whose only UserReward is already COMPLETED — issues
one more ledger transfer to alice (100 BOSON, i.e. 10^11 base units) before
failing on the pool-uniqueness constraint; the claim requires zero
additional transfer calls and no re-transfer to a COMPLETED recipient. -/
theorem C1_reinvocation_retransfers_before_unique_check :
    (reinvokeDb.rewards.all (fun r => r.status == RewardStatus.COMPLETED)) = true ∧
    (distributeSnapshotBasedRewards reinvokeDb okTransfer "T1" (mkRat 100 1)
        distCalcs true).events =
      [DistEvent.transferAttempt "alice" 100000000000] ∧
    ((distributeSnapshotBasedRewards reinvokeDb okTransfer "T1" (mkRat 100 1)
        distCalcs true).events.countP isTransferEventB) = 1 ∧
    (distributeSnapshotBasedRewards reinvokeDb okTransfer "T1" (mkRat 100 1)
        distCalcs true).httpOk = false := by
  refine ⟨by decide, by decide, by decide, by decide⟩

/-- The write-ahead property claimed for a distribute run: the RewardPool
create and a PENDING UserReward create for every eligible address appear in
the trace before the first transfer attempt. -/
def writeAheadB (tournamentId : String) (eligible : List String)
    (evs : List DistEvent) : Bool :=
  let pre := evs.takeWhile (fun e => !(isTransferEventB e))
  pre.contains (DistEvent.createRewardPool tournamentId) &&
    eligible.all (fun a =>
      pre.contains (DistEvent.createUserReward a RewardStatus.PENDING))

/-- C2, failing input: a fresh distribute run (empty store, one eligible
recipient) starts with the ledger transfer as its very first effect; the
RewardPool and the UserReward row are created only afterwards, and the
UserReward is created with status COMPLETED — no PENDING row ever exists,
refuting write-ahead of intent. -/
theorem C2_no_write_ahead_of_intent :
    writeAheadB "T1" ["alice"]
      (distributeSnapshotBasedRewards { pools := [], rewards := [] }
        okTransfer "T1" (mkRat 100 1) distCalcs true).events = false ∧
    (distributeSnapshotBasedRewards { pools := [], rewards := [] }
        okTransfer "T1" (mkRat 100 1) distCalcs true).events =
      [ DistEvent.transferAttempt "alice" 100000000000
      , DistEvent.createRewardPool "T1"
      , DistEvent.createUserReward "alice" RewardStatus.COMPLETED ] := by
  refine ⟨by decide, by decide⟩

/-- Parse a status string from the request body against the four status
names accepted by `updateRewardStatus`. -/
def statusOfString (s : String) : Option RewardStatus :=
  if s = "PENDING" then some RewardStatus.PENDING
  else if s = "PROCESSING" then some RewardStatus.PROCESSING
  else if s = "COMPLETED" then some RewardStatus.COMPLETED
  else if s = "FAILED" then some RewardStatus.FAILED
  else none

/-- Position of a status along the PENDING → PROCESSING → COMPLETED/FAILED
pipeline; a transition is backward when this rank decreases. -/
def statusRank : RewardStatus → Nat
  | RewardStatus.PENDING => 0
  | RewardStatus.PROCESSING => 1
  | RewardStatus.COMPLETED => 2
  | RewardStatus.FAILED => 2

/-- `updateRewardStatus` from `users.controller.ts`: 400 (modelled `none`)
when the requested status string is not one of the four names; otherwise the
requested status is written unconditionally — there is no check against the
current status — and the transaction id is overwritten only when a truthy
(non-empty) id is supplied. -/
def updateRewardStatus (current : RewardStatus) (currentTx : Option String)
    (requested : String) (requestedTx : Option String) :
    Option (RewardStatus × Option String) :=
  match statusOfString requested with
  | none => none
  | some s =>
    some (s, if (requestedTx.getD "") ≠ "" then requestedTx else currentTx)

/-- `processReward` from `users.controller.ts`: 400 (modelled `none`) unless
the reward is PENDING; otherwise it is moved to PROCESSING with the supplied
transaction id (or null). -/
def processReward (current : RewardStatus) (requestedTx : Option String) :
    Option (RewardStatus × Option String) :=
  if current = RewardStatus.PENDING then
    some (RewardStatus.PROCESSING, requestedTx)
  else none

/-- C7 counterexample: `updateRewardStatus` moves a COMPLETED reward back to
PENDING — a strictly backward transition — so not every UserReward update
moves the status forward. -/
theorem C7_counterexample_backward_status_update :
    updateRewardStatus RewardStatus.COMPLETED (some "sig0") "PENDING" none =
      some (RewardStatus.PENDING, some "sig0") ∧
    statusRank RewardStatus.PENDING < statusRank RewardStatus.COMPLETED := by
  refine ⟨by decide, by decide⟩

/-- C7 amended: `processReward` only ever moves a reward forward — it
updates exactly the PENDING rewards, to PROCESSING — while
`updateRewardStatus` merely validates the status name and writes exactly the
requested status with no transition check, so it can move a status
backward. -/
theorem C7_amended_only_processReward_is_forward :
    (∀ cur tx cur2 tx2, processReward cur tx = some (cur2, tx2) →
      cur = RewardStatus.PENDING ∧ cur2 = RewardStatus.PROCESSING ∧
        statusRank cur < statusRank cur2) ∧
    (∀ cur ctx req rtx s tx2,
      updateRewardStatus cur ctx req rtx = some (s, tx2) →
        statusOfString req = some s) := by
  constructor
  · intro cur tx cur2 tx2 h
    unfold processReward at h
    split at h
    · rename_i hp
      cases h
      exact ⟨hp, rfl, by rw [hp]; decide⟩
    · cases h
  · intro cur ctx req rtx s tx2 h
    unfold updateRewardStatus at h
    rcases hs : statusOfString req with _ | s2 <;> rw [hs] at h
    · cases h
    · cases h
      rfl

theorem C7_amended_only_processReward_is_forward_witness :
    RewardStatus.PENDING = RewardStatus.PENDING ∧
    RewardStatus.PROCESSING = RewardStatus.PROCESSING ∧
    statusRank RewardStatus.PENDING < statusRank RewardStatus.PROCESSING := by
  exact C7_amended_only_processReward_is_forward.1 RewardStatus.PENDING none
    RewardStatus.PROCESSING none (by decide)

/-- The `SnapshotType` enum of the Prisma schema. -/
inductive SnapshotType
  | PRE_MATCH
  | POST_MATCH
deriving DecidableEq, Repr

/-- One holding of the snapshot payload: holder address, token module,
ledger-native integer balance. -/
structure Holding where
  address : String
  moduleName : String
  balance : Nat
deriving DecidableEq, Repr

/-- Lookup in the snapshot store, keyed by (tournamentId, snapshotType) as
the schema's `snapshots_tournamentId_snapshotType_key` unique index is. -/
def lookupSnap (st : List ((String × SnapshotType) × List Holding))
    (tid : String) (ty : SnapshotType) : Option (List Holding) :=
  match st with
  | [] => none
  | (k, v) :: rest => if k = (tid, ty) then some v else lookupSnap rest tid ty

/-- Modelled from the spec: `createContractSnapshot` — the snapshot service
implementation is not among the sources, only its controller caller and the
schema's unique index on (tournamentId, snapshotType). Following spec §4.1,
capture fails with `DuplicateSnapshotError` when a snapshot for the pair
already exists, and otherwise persists the captured holdings under that key
and returns the record. -/
def captureSnapshot (st : List ((String × SnapshotType) × List Holding))
    (tid : String) (ty : SnapshotType) (holdings : List Holding) :
    Except String (List ((String × SnapshotType) × List Holding) × List Holding) :=
  match lookupSnap st tid ty with
  | some _ => Except.error "DuplicateSnapshotError"
  | none => Except.ok (((tid, ty), holdings) :: st, holdings)

/-- C4: after a successful capture for (tournamentId, snapshotType), a second
capture for the same pair fails with DuplicateSnapshotError, leaves the
store unchanged (the failed call performs no write), and the stored snapshot
for the pair is still exactly the one captured by the first call. -/
theorem C4_second_capture_rejected_store_unchanged
    (st st1 : List ((String × SnapshotType) × List Holding))
    (tid : String) (ty : SnapshotType) (h1 h2 ret1 : List Holding)
    (hfirst : captureSnapshot st tid ty h1 = Except.ok (st1, ret1)) :
    captureSnapshot st1 tid ty h2 = Except.error "DuplicateSnapshotError" ∧
    lookupSnap st1 tid ty = some h1 := by
  unfold captureSnapshot at hfirst
  rcases hlk : lookupSnap st tid ty with _ | v <;> rw [hlk] at hfirst
  · cases hfirst
    have hkey : lookupSnap (((tid, ty), h1) :: st) tid ty = some h1 := by
      unfold lookupSnap
      simp
    refine ⟨?_, hkey⟩
    unfold captureSnapshot
    rw [hkey]
  · cases hfirst

theorem C4_second_capture_rejected_store_unchanged_witness :
    captureSnapshot [(("T1", SnapshotType.PRE_MATCH),
        [{ address := "alice", moduleName := "ViratKohli", balance := 7 }])]
      "T1" SnapshotType.PRE_MATCH
      [{ address := "bob", moduleName := "JoeRoot", balance := 3 }] =
      Except.error "DuplicateSnapshotError" ∧
    lookupSnap [(("T1", SnapshotType.PRE_MATCH),
        [{ address := "alice", moduleName := "ViratKohli", balance := 7 }])]
      "T1" SnapshotType.PRE_MATCH =
      some [{ address := "alice", moduleName := "ViratKohli", balance := 7 }] := by
  exact C4_second_capture_rejected_store_unchanged []
    [(("T1", SnapshotType.PRE_MATCH),
      [{ address := "alice", moduleName := "ViratKohli", balance := 7 }])]
    "T1" SnapshotType.PRE_MATCH
    [{ address := "alice", moduleName := "ViratKohli", balance := 7 }]
    [{ address := "bob", moduleName := "JoeRoot", balance := 3 }]
    [{ address := "alice", moduleName := "ViratKohli", balance := 7 }]
    (by rfl)

/-- Total balance an address holds in a snapshot payload, summed over all
token modules. -/
def balanceOf (s : List Holding) (a : String) : Nat :=
  ((s.filter (fun h => h.address == a)).map Holding.balance).sum

/-- The distinct holder addresses of a snapshot payload, in first-occurrence
order. -/
def holderAddresses (s : List Holding) : List String :=
  (s.map Holding.address).dedup

/-- Lexicographic order on character lists. -/
def charListLeB : List Char → List Char → Bool
  | [], _ => true
  | _ :: _, [] => false
  | a :: as, b :: bs =>
    if a < b then true else if b < a then false else charListLeB as bs

/-- Lexicographic order on strings, used for the deterministic address
ordering the spec requires. -/
def strLeB (a b : String) : Bool := charListLeB a.data b.data

/-- Insertion into a lexically sorted address list. -/
def insertSorted (a : String) : List String → List String
  | [] => [a]
  | b :: rest => if strLeB a b then a :: b :: rest else b :: insertSorted a rest

/-- Lexical insertion sort of an address list. -/
def sortStrings : List String → List String
  | [] => []
  | a :: rest => insertSorted a (sortStrings rest)

/-- Modelled from the spec: the eligibility rule of `calculateRewards`
(spec §4.2 with the continuity rule fixed by the §8 scenario — the
reward-calculation service is not among the sources): an address is
eligible iff it holds a non-zero balance in the PRE_MATCH snapshot and
still holds a non-zero balance in the POST_MATCH snapshot; the list is
ordered lexically, never by arrival order. -/
def eligibleAddresses (pre post : List Holding) : List String :=
  sortStrings ((holderAddresses pre).filter (fun a =>
    decide (0 < balanceOf pre a) && decide (0 < balanceOf post a)))

/-- The calculator output: per-eligible-address shares, the ineligible
addresses, and the total eligible weight. -/
structure RewardDistribution where
  shares : List (String × Nat)
  ineligible : List String
  totalEligibleWeight : Nat
deriving DecidableEq, Repr

/-- Modelled from the spec: the share computation of `calculateRewards`
(spec §4.2; the reward-calculation service is not among the sources).
Weight of an eligible address = its PRE_MATCH balance; share =
totalRewardAmount × weight / totalWeight in integer arithmetic, rounded
down per address; the rounding remainder stays in the pool. Amounts are
ledger-native integers per the spec's numeric policy. -/
def calculateRewards (pre post : List Holding) (totalRewardAmount : Nat) :
    RewardDistribution :=
  let elig := eligibleAddresses pre post
  let w := (elig.map (fun a => balanceOf pre a)).sum
  { shares := elig.map (fun a => (a, totalRewardAmount * balanceOf pre a / w))
    ineligible := (holderAddresses pre).filter (fun a =>
      !((eligibleAddresses pre post).contains a))
    totalEligibleWeight := w }

/-- Modelled from the spec: `calculateRewardsFromSnapshots` (spec §4.2
preconditions; the reward-calculation service is not among the sources):
fail with a MissingSnapshotError naming the absent snapshot, else compute
the distribution purely from the two stored snapshots and the amount. -/
def calculateRewardsFromSnapshots
    (db : List ((String × SnapshotType) × List Holding))
    (tid : String) (totalRewardAmount : Nat) :
    Except String RewardDistribution :=
  match lookupSnap db tid SnapshotType.PRE_MATCH with
  | none => Except.error "MissingSnapshotError PRE_MATCH"
  | some pre =>
    match lookupSnap db tid SnapshotType.POST_MATCH with
    | none => Except.error "MissingSnapshotError POST_MATCH"
    | some post => Except.ok (calculateRewards pre post totalRewardAmount)

/-- C6: the calculator is pure relative to the two snapshots and the
amount: any two stores that agree on the tournament's PRE_MATCH and
POST_MATCH snapshots give identical calculator output — in particular two
invocations on the same store always agree. -/
theorem C6_calculateRewards_deterministic
    (db1 db2 : List ((String × SnapshotType) × List Holding))
    (tid : String) (totalRewardAmount : Nat)
    (hpre : lookupSnap db1 tid SnapshotType.PRE_MATCH =
      lookupSnap db2 tid SnapshotType.PRE_MATCH)
    (hpost : lookupSnap db1 tid SnapshotType.POST_MATCH =
      lookupSnap db2 tid SnapshotType.POST_MATCH) :
    calculateRewardsFromSnapshots db1 tid totalRewardAmount =
      calculateRewardsFromSnapshots db2 tid totalRewardAmount := by
  unfold calculateRewardsFromSnapshots
  rw [hpre, hpost]

/-- Snapshot fixtures for the C6 witness (the §8 scenario: B fully exits
between the snapshots). -/
def c6pre : List Holding :=
  [ { address := "A", moduleName := "X", balance := 100 }
  , { address := "B", moduleName := "X", balance := 50 } ]

/-- POST_MATCH fixture for the C6 witness. -/
def c6post : List Holding :=
  [{ address := "A", moduleName := "X", balance := 100 }]

/-- Store fixture for the C6 witness. -/
def c6db1 : List ((String × SnapshotType) × List Holding) :=
  [ (("T1", SnapshotType.PRE_MATCH), c6pre)
  , (("T1", SnapshotType.POST_MATCH), c6post) ]

/-- A second store for the C6 witness: same two snapshots for T1, but an
unrelated tournament's snapshot stored in front. -/
def c6db2 : List ((String × SnapshotType) × List Holding) :=
  (("T2", SnapshotType.PRE_MATCH),
    [{ address := "C", moduleName := "Y", balance := 9 }]) :: c6db1

theorem C6_calculateRewards_deterministic_witness :
    calculateRewardsFromSnapshots c6db1 "T1" 1000 =
      calculateRewardsFromSnapshots c6db2 "T1" 1000 ∧
    calculateRewardsFromSnapshots c6db1 "T1" 1000 =
      Except.ok (calculateRewards c6pre c6post 1000) ∧
    (calculateRewards c6pre c6post 1000).shares = [("A", 1000)] := by
  refine ⟨C6_calculateRewards_deterministic c6db1 c6db2 "T1" 1000
    (by decide) (by decide), by rfl, by decide⟩

/-- Integer division is superadditive. -/
theorem div_add_div_le_div (a b W : Nat) : a / W + b / W ≤ (a + b) / W := by
  rcases Nat.eq_zero_or_pos W with hW | hW
  · subst hW; simp
  · rw [Nat.le_div_iff_mul_le hW, Nat.add_mul]
    exact Nat.add_le_add (Nat.div_mul_le_self a W) (Nat.div_mul_le_self b W)

/-- Summing the floored quotients never exceeds the floored quotient of the
sum. -/
theorem sum_map_div_le {α : Type} (l : List α) (f : α → Nat) (W : Nat) :
    (l.map (fun a => f a / W)).sum ≤ (l.map f).sum / W := by
  induction l with
  | nil => simp
  | cons a as ih =>
    simp only [List.map_cons, List.sum_cons]
    calc f a / W + (as.map (fun a => f a / W)).sum
        ≤ f a / W + (as.map f).sum / W := Nat.add_le_add_left ih _
      _ ≤ (f a + (as.map f).sum) / W := div_add_div_le_div _ _ _

/-- Every number is strictly below the next multiple of a positive divisor
above its floored quotient. -/
theorem lt_div_succ_mul (a W : Nat) (hW : 0 < W) : a < (a / W + 1) * W := by
  calc a = W * (a / W) + a % W := (Nat.div_add_mod a W).symm
    _ < W * (a / W) + W := Nat.add_lt_add_left (Nat.mod_lt a hW) _
    _ = (a / W + 1) * W := by ring

/-- A pointwise strict inequality sums to a strict inequality over a
non-empty list. -/
theorem sum_lt_sum_of_forall_lt {α : Type} (l : List α) (f g : α → Nat)
    (hne : l ≠ []) (h : ∀ a ∈ l, f a < g a) :
    (l.map f).sum < (l.map g).sum := by
  induction l with
  | nil => exact absurd rfl hne
  | cons a as ih =>
    simp only [List.map_cons, List.sum_cons]
    rcases eq_or_ne as [] with rfl | has
    · simpa using h a (by simp)
    · exact Nat.add_lt_add (h a (by simp))
        (ih has (fun x hx => h x (by simp [hx])))

/-- Distributing `(s a + 1) * W` over a sum. -/
theorem sum_map_succ_mul {α : Type} (l : List α) (s : α → Nat) (W : Nat) :
    (l.map (fun a => (s a + 1) * W)).sum = ((l.map s).sum + l.length) * W := by
  induction l with
  | nil => simp
  | cons a as ih =>
    simp only [List.map_cons, List.sum_cons, List.length_cons, ih]
    ring

/-- Second components of a pair-building map. -/
theorem map_snd_map_pair {α β : Type} (l : List α) (f : α → β) :
    ((l.map (fun a => (a, f a))).map Prod.snd) = l.map f := by
  simp [List.map_map]

/-- C3: for every computed distribution with a positive total eligible
weight, the sum of the per-address shares is at most the total reward
amount (so the difference is never negative), and the rounding loss —
total minus the distributed sum — is strictly below the number of eligible
addresses. -/
theorem C3_reward_sum_invariant (pre post : List Holding) (total : Nat)
    (hW : 0 < (calculateRewards pre post total).totalEligibleWeight) :
    ((calculateRewards pre post total).shares.map Prod.snd).sum ≤ total ∧
    total - ((calculateRewards pre post total).shares.map Prod.snd).sum <
      (calculateRewards pre post total).shares.length := by
  unfold calculateRewards at hW ⊢
  simp only [] at hW ⊢
  rw [map_snd_map_pair, List.length_map]
  set elig := eligibleAddresses pre post with helig
  set W := (elig.map (fun a => balanceOf pre a)).sum with hWdef
  have hsum_mul : (elig.map (fun a => total * balanceOf pre a)).sum = total * W := by
    rw [hWdef]
    exact List.sum_map_mul_left elig (fun a => balanceOf pre a) total
  have hupper : (elig.map (fun a => total * balanceOf pre a / W)).sum ≤ total := by
    calc (elig.map (fun a => total * balanceOf pre a / W)).sum
        ≤ (elig.map (fun a => total * balanceOf pre a)).sum / W :=
          sum_map_div_le elig (fun a => total * balanceOf pre a) W
      _ = total * W / W := by rw [hsum_mul]
      _ = total := Nat.mul_div_cancel total hW
  refine ⟨hupper, ?_⟩
  have hne : elig ≠ [] := by
    intro hnil
    rw [hnil] at hWdef
    simp only [List.map_nil, List.sum_nil] at hWdef
    rw [hWdef] at hW
    exact Nat.lt_irrefl 0 hW
  have hstrict : total * W <
      ((elig.map (fun a => total * balanceOf pre a / W)).sum + elig.length) * W := by
    calc total * W = (elig.map (fun a => total * balanceOf pre a)).sum :=
          hsum_mul.symm
      _ < (elig.map (fun a => (total * balanceOf pre a / W + 1) * W)).sum :=
          sum_lt_sum_of_forall_lt elig _ _ hne
            (fun a _ => lt_div_succ_mul (total * balanceOf pre a) W hW)
      _ = ((elig.map (fun a => total * balanceOf pre a / W)).sum + elig.length) * W :=
          sum_map_succ_mul elig (fun a => total * balanceOf pre a / W) W
  have htotal : total <
      (elig.map (fun a => total * balanceOf pre a / W)).sum + elig.length :=
    lt_of_mul_lt_mul_right hstrict (Nat.zero_le W)
  omega

theorem C3_reward_sum_invariant_witness :
    (calculateRewards
      [ { address := "A", moduleName := "X", balance := 30 }
      , { address := "B", moduleName := "X", balance := 70 } ]
      [ { address := "A", moduleName := "X", balance := 30 }
      , { address := "B", moduleName := "X", balance := 70 } ]
      1000).shares = [("A", 300), ("B", 700)] ∧
    (((calculateRewards
      [ { address := "A", moduleName := "X", balance := 30 }
      , { address := "B", moduleName := "X", balance := 70 } ]
      [ { address := "A", moduleName := "X", balance := 30 }
      , { address := "B", moduleName := "X", balance := 70 } ]
      1000).shares.map Prod.snd).sum ≤ 1000 ∧
    1000 - ((calculateRewards
      [ { address := "A", moduleName := "X", balance := 30 }
      , { address := "B", moduleName := "X", balance := 70 } ]
      [ { address := "A", moduleName := "X", balance := 30 }
      , { address := "B", moduleName := "X", balance := 70 } ]
      1000).shares.map Prod.snd).sum <
      (calculateRewards
      [ { address := "A", moduleName := "X", balance := 30 }
      , { address := "B", moduleName := "X", balance := 70 } ]
      [ { address := "A", moduleName := "X", balance := 30 }
      , { address := "B", moduleName := "X", balance := 70 } ]
      1000).shares.length) := by
  refine ⟨by decide, C3_reward_sum_invariant _ _ 1000 (by decide)⟩

/-- The SPL token program id used by the adapter. -/
def TOKEN_PROGRAM_ID : String := "TokenkegQfeZyiNwAJbNbGKPFXCWuBvf9Ss623VQ5DA"

/-- The Token-2022 program id used by the adapter. -/
def TOKEN_2022_PROGRAM_ID : String := "TokenzQdBNbLqP5VEhdkAS6EPFLC1PHnBqCXEpPxuEb"

/-- Substring test (JavaScript `includes`), via `splitOn`. -/
def containsSub (s pat : String) : Bool := (s.splitOn pat).length ≥ 2

/-- A non-empty string stays non-empty after appending. -/
theorem str_append_ne_empty (a b : String) (ha : a ≠ "") : a ++ b ≠ "" := by
  intro h
  apply ha
  apply String.ext
  have hd := congrArg String.data h
  rw [String.data_append] at hd
  have hnil : a.data ++ b.data = [] := by simpa using hd
  simpa using (List.append_eq_nil.mp hnil).1

/-- The token-account payload returned by `getAccount`: owning token
program, mint and raw balance. -/
structure SourceAccount where
  owner : String
  mint : String
  amount : Nat
deriving DecidableEq, Repr

/-- The generic account payload returned by `connection.getAccountInfo`
(`none` models a null response). -/
structure AccountMeta where
  owner : String
deriving DecidableEq, Repr

/-- The external world of `transferTokens`: key decoding, address parsing,
ATA derivation, account queries, simulation, submission and confirmation.
Every fallible call returns `Except` with the thrown message. -/
structure TransferEnv where
  decodeBase58Key : String → Except String String
  parseJsonKey : String → Except String String
  parsePubkey : String → Except String String
  ata : String → String → String
  getAccount : String → Except String SourceAccount
  getAccountInfo : String → Except String (Option AccountMeta)
  simulate : Except String (Option String)
  send : Except String String
  confirm : String → Except String (Option String)
  network : String

/-- The private-key parsing of `transferTokens`: base58 first; on failure
the JSON-array fallback runs inside its own try whose catch rewraps every
error (including the explicit not-an-array throw) into the combined
message. Returns the keypair's public key. -/
def parseKeypair (env : TransferEnv) (privateKeyString : String) :
    Except String String :=
  match env.decodeBase58Key privateKeyString with
  | Except.ok k => Except.ok k
  | Except.error e58 =>
    match
      (if privateKeyString.startsWith "[" ∧ privateKeyString.endsWith "]" then
        env.parseJsonKey privateKeyString
      else
        Except.error
          ("Invalid private key format. Expected base58 or JSON array. Base58 error: "
            ++ e58)) with
    | Except.ok k => Except.ok k
    | Except.error ejson =>
      Except.error ("Failed to parse private key. Base58 error: " ++ e58 ++
        ". JSON error: " ++ ejson)

/-- Mint resolution in `transferTokens`: a known player module name maps to
its configured mint, anything else must itself parse as a mint address. -/
def resolveMint (env : TransferEnv) (mints : List (String × String))
    (tokenType : String) : Except String String :=
  match alistLookup mints tokenType with
  | some m => Except.ok m
  | none => env.parsePubkey tokenType

/-- The amount guard of `transferTokens`:
`BigInt(Math.floor(amount)) <= 0` is rejected. -/
def checkAmount (amount : ℚ) : Except String Nat :=
  if Rat.floor amount ≤ 0 then
    Except.error "Invalid transfer amount: must be greater than 0."
  else Except.ok (Rat.floor amount).toNat

/-- The classification that the catch of the fallback try applies to the
ORIGINAL source-check error message. -/
def classifySourceError (sourceATA tokenType origMsg : String) :
    Except String (Option SourceAccount) :=
  if containsSub origMsg "could not find account" ∨
      containsSub origMsg "Account does not exist" then
    Except.error ("Source token account " ++ sourceATA ++
      " does not exist. This means the admin wallet does not have any " ++
      tokenType ++ " tokens.")
  else if containsSub origMsg "Invalid account" then
    Except.error ("Invalid source token account " ++ sourceATA ++ ".")
  else
    Except.error ("Failed to check source account balance: " ++ origMsg)

/-- The body of the fallback try: retry with `getAccountInfo`; a null
account or an unexpected owner throws; a Token-2022 owner lets the transfer
continue with no `sourceAccountInfo`. -/
def sourceFallbackInner (env : TransferEnv) (sourceATA tokenType : String) :
    Except String (Option SourceAccount) :=
  match env.getAccountInfo sourceATA with
  | Except.error e2 => Except.error e2
  | Except.ok none =>
    Except.error ("Source token account " ++ sourceATA ++
      " does not exist. This means the admin wallet does not have any " ++
      tokenType ++ " tokens.")
  | Except.ok (some meta) =>
    if meta.owner = TOKEN_2022_PROGRAM_ID then Except.ok none
    else
      Except.error ("Source account " ++ sourceATA ++
        " has unexpected owner: " ++ meta.owner)

/-- The catch-block of the source-account check: run the fallback try;
whatever it throws is replaced by the classification of the original
message. -/
def sourceFallback (env : TransferEnv) (sourceATA tokenType origMsg : String) :
    Except String (Option SourceAccount) :=
  match sourceFallbackInner env sourceATA tokenType with
  | Except.ok r => Except.ok r
  | Except.error _ => classifySourceError sourceATA tokenType origMsg

/-- The source-account check of `transferTokens`: `getAccount`, then the
mint-match and sufficient-balance guards — all three failure kinds land in
the same catch (`sourceFallback`). -/
def checkSource (env : TransferEnv) (sourceATA mintAddress tokenType : String)
    (transferAmount : Nat) : Except String (Option SourceAccount) :=
  match env.getAccount sourceATA with
  | Except.error e => sourceFallback env sourceATA tokenType e
  | Except.ok info =>
    if info.mint ≠ mintAddress then
      sourceFallback env sourceATA tokenType
        ("Mint mismatch! Source account mint: " ++ info.mint ++
          ", Expected: " ++ mintAddress)
    else if info.amount < transferAmount then
      sourceFallback env sourceATA tokenType
        ("Insufficient balance. Source has " ++ toString info.amount ++
          ", trying to transfer " ++ toString transferAmount)
    else Except.ok (some info)

/-- The destination-account check of `transferTokens`: a missing account is
created later (not an error); any other failure is rethrown wrapped. -/
def checkDest (env : TransferEnv) (destATA : String) : Except String Bool :=
  match env.getAccount destATA with
  | Except.ok _ => Except.ok true
  | Except.error e =>
    if containsSub e "could not find account" then Except.ok false
    else Except.error ("Failed to check destination account: " ++ e)

/-- Token-program selection of `transferTokens` (total: its own catch
defaults to the classic program). -/
def pickTokenProgram (env : TransferEnv) (sourceInfo : Option SourceAccount)
    (sourceATA : String) : String :=
  match sourceInfo with
  | some info =>
    if info.owner = TOKEN_2022_PROGRAM_ID then TOKEN_2022_PROGRAM_ID
    else TOKEN_PROGRAM_ID
  | none =>
    match env.getAccountInfo sourceATA with
    | Except.ok (some meta) =>
      if meta.owner = TOKEN_2022_PROGRAM_ID then TOKEN_2022_PROGRAM_ID
      else TOKEN_PROGRAM_ID
    | _ => TOKEN_PROGRAM_ID

/-- The simulation step: a simulation error value throws inside the try and
its catch rethrows with the same prefix, so both failure kinds surface as
a prefixed message. -/
def runSimulation (env : TransferEnv) : Except String Unit :=
  match env.simulate with
  | Except.error e => Except.error ("Transaction simulation failed: " ++ e)
  | Except.ok (some err) =>
    Except.error ("Transaction simulation failed: Transaction simulation failed: "
      ++ err)
  | Except.ok none => Except.ok ()

/-- The confirmation step: a thrown confirmation error is wrapped; a
confirmed transaction whose per-transaction `err` is set throws
`Transaction failed`. -/
def confirmTransaction (env : TransferEnv) (signature : String) :
    Except String Unit :=
  match env.confirm signature with
  | Except.error e => Except.error ("Transaction confirmation failed: " ++ e)
  | Except.ok (some err) => Except.error ("Transaction failed: " ++ err)
  | Except.ok none => Except.ok ()

/-- `getExplorerUrl` with the cluster suffix derived from the network
name. -/
def getExplorerUrl (network txHash : String) : String :=
  "https://explorer.solana.com/tx/" ++ txHash ++
    (if containsSub (toLowerStr network) "devnet" then "?cluster=devnet"
     else if containsSub (toLowerStr network) "testnet" then "?cluster=testnet"
     else "")

/-- The happy-path pipeline of `transferTokens` (`solana.adapter.ts`,
src variant), as the chain of its fallible steps; the ATA derivations and
the instruction building are pure, and the diagnostic wallet listing only
logs, so they do not appear as failure points. Produces the signature and
explorer URL. -/
def transferTokensE (env : TransferEnv) (mints : List (String × String))
    (privateKeyString toAddress : String) (amount : ℚ) (tokenType : String) :
    Except String (String × String) :=
  match parseKeypair env privateKeyString with
  | Except.error e => Except.error e
  | Except.ok senderKey =>
    match resolveMint env mints tokenType with
    | Except.error e => Except.error e
    | Except.ok mintAddress =>
      match env.parsePubkey toAddress with
      | Except.error e => Except.error e
      | Except.ok toKey =>
        match checkAmount amount with
        | Except.error e => Except.error e
        | Except.ok transferAmount =>
          match checkSource env (env.ata mintAddress senderKey) mintAddress
              tokenType transferAmount with
          | Except.error e => Except.error e
          | Except.ok _sourceInfo =>
            match checkDest env (env.ata mintAddress toKey) with
            | Except.error e => Except.error e
            | Except.ok _destinationAccountExists =>
              match runSimulation env with
              | Except.error e => Except.error e
              | Except.ok _ =>
                match env.send with
                | Except.error e => Except.error e
                | Except.ok signature =>
                  match confirmTransaction env signature with
                  | Except.error e => Except.error e
                  | Except.ok _ =>
                    Except.ok (signature, getExplorerUrl env.network signature)

/-- `transferTokens` from `solana.adapter.ts`: the outer catch turns every
failure into `success: false` with an empty hash and the thrown message;
success carries the signature. -/
def transferTokens (env : TransferEnv) (mints : List (String × String))
    (privateKeyString toAddress : String) (amount : ℚ) (tokenType : String) :
    TransferResult :=
  match transferTokensE env mints privateKeyString toAddress amount tokenType with
  | Except.ok su =>
    { success := true, transactionHash := su.1, explorerUrl := su.2,
      error := none }
  | Except.error e =>
    { success := false, transactionHash := "", explorerUrl := "",
      error := some e }

/-- A non-empty right part keeps an append non-empty. -/
theorem str_append_ne_empty_right (a b : String) (hb : b ≠ "") : a ++ b ≠ "" := by
  intro h
  apply hb
  apply String.ext
  have hd := congrArg String.data h
  rw [String.data_append] at hd
  have hnil : a.data ++ b.data = [] := by simpa using hd
  simpa using (List.append_eq_nil.mp hnil).2

/-- Private-key parse failures carry a non-empty message. -/
theorem parseKeypair_error_ne (env : TransferEnv) (pk e : String)
    (h : parseKeypair env pk = Except.error e) : e ≠ "" := by
  unfold parseKeypair at h
  split at h
  · simp at h
  · split at h
    · simp at h
    · simp only [Except.error.injEq] at h
      subst h
      exact str_append_ne_empty _ _ (str_append_ne_empty_right _ _ (by decide))

/-- Amount-guard failures carry a non-empty message. -/
theorem checkAmount_error_ne (amount : ℚ) (e : String)
    (h : checkAmount amount = Except.error e) : e ≠ "" := by
  unfold checkAmount at h
  split at h
  · simp only [Except.error.injEq] at h
    subst h
    decide
  · simp at h

/-- The error classification only produces non-empty messages. -/
theorem classifySourceError_error_ne (sourceATA tokenType origMsg e : String)
    (h : classifySourceError sourceATA tokenType origMsg = Except.error e) :
    e ≠ "" := by
  unfold classifySourceError at h
  split at h
  · simp only [Except.error.injEq] at h
    subst h
    exact str_append_ne_empty_right _ _ (by decide)
  · split at h
    · simp only [Except.error.injEq] at h
      subst h
      exact str_append_ne_empty_right _ _ (by decide)
    · simp only [Except.error.injEq] at h
      subst h
      exact str_append_ne_empty _ _ (by decide)

/-- Source-account fallback failures carry a non-empty message. -/
theorem sourceFallback_error_ne (env : TransferEnv)
    (sourceATA tokenType origMsg e : String)
    (h : sourceFallback env sourceATA tokenType origMsg = Except.error e) :
    e ≠ "" := by
  unfold sourceFallback at h
  split at h
  · simp at h
  · exact classifySourceError_error_ne _ _ _ _ h

/-- Source-account check failures carry a non-empty message. -/
theorem checkSource_error_ne (env : TransferEnv)
    (sourceATA mintAddress tokenType : String) (transferAmount : Nat)
    (e : String)
    (h : checkSource env sourceATA mintAddress tokenType transferAmount =
      Except.error e) : e ≠ "" := by
  unfold checkSource at h
  split at h
  · exact sourceFallback_error_ne env _ _ _ _ h
  · split at h
    · exact sourceFallback_error_ne env _ _ _ _ h
    · split at h
      · exact sourceFallback_error_ne env _ _ _ _ h
      · simp at h

/-- Destination-account check failures carry a non-empty message. -/
theorem checkDest_error_ne (env : TransferEnv) (destATA e : String)
    (h : checkDest env destATA = Except.error e) : e ≠ "" := by
  unfold checkDest at h
  split at h
  · simp at h
  · split at h
    · simp at h
    · simp only [Except.error.injEq] at h
      subst h
      exact str_append_ne_empty _ _ (by decide)

/-- Simulation failures carry a non-empty message. -/
theorem runSimulation_error_ne (env : TransferEnv) (e : String)
    (h : runSimulation env = Except.error e) : e ≠ "" := by
  unfold runSimulation at h
  split at h
  · simp only [Except.error.injEq] at h
    subst h
    exact str_append_ne_empty _ _ (by decide)
  · simp only [Except.error.injEq] at h
    subst h
    exact str_append_ne_empty _ _ (by decide)
  · simp at h

/-- Confirmation failures carry a non-empty message. -/
theorem confirmTransaction_error_ne (env : TransferEnv) (signature e : String)
    (h : confirmTransaction env signature = Except.error e) : e ≠ "" := by
  unfold confirmTransaction at h
  split at h
  · simp only [Except.error.injEq] at h
    subst h
    exact str_append_ne_empty _ _ (by decide)
  · simp only [Except.error.injEq] at h
    subst h
    exact str_append_ne_empty _ _ (by decide)
  · simp at h

/-- A mint-resolution failure is exactly a PublicKey-constructor failure on
the token type. -/
theorem resolveMint_error (env : TransferEnv) (mints : List (String × String))
    (tokenType e : String)
    (h : resolveMint env mints tokenType = Except.error e) :
    env.parsePubkey tokenType = Except.error e := by
  unfold resolveMint at h
  split at h
  · simp at h
  · exact h

/-- A passed amount guard means the floored amount was positive. -/
theorem checkAmount_ok (amount : ℚ) (t : Nat)
    (h : checkAmount amount = Except.ok t) : ¬ Rat.floor amount ≤ 0 := by
  unfold checkAmount at h
  split at h
  · simp at h
  · assumption

/-- Every failure of the transfer pipeline carries a non-empty message,
provided the runtime's own thrown messages (PublicKey construction and
transaction submission) are non-empty. -/
theorem transferTokensE_error_ne (env : TransferEnv)
    (mints : List (String × String)) (pk toAddr : String) (amount : ℚ)
    (tokenType e : String)
    (hpk : ∀ s e2, env.parsePubkey s = Except.error e2 → e2 ≠ "")
    (hsend : ∀ e2, env.send = Except.error e2 → e2 ≠ "")
    (h : transferTokensE env mints pk toAddr amount tokenType =
      Except.error e) : e ≠ "" := by
  unfold transferTokensE at h
  split at h
  · rename_i e1 heq
    simp only [Except.error.injEq] at h
    subst h
    exact parseKeypair_error_ne env pk _ heq
  · split at h
    · rename_i e1 heq
      simp only [Except.error.injEq] at h
      subst h
      exact hpk tokenType _ (resolveMint_error env mints tokenType _ heq)
    · split at h
      · rename_i e1 heq
        simp only [Except.error.injEq] at h
        subst h
        exact hpk toAddr _ heq
      · split at h
        · rename_i e1 heq
          simp only [Except.error.injEq] at h
          subst h
          exact checkAmount_error_ne amount _ heq
        · split at h
          · rename_i e1 heq
            simp only [Except.error.injEq] at h
            subst h
            exact checkSource_error_ne env _ _ _ _ _ heq
          · split at h
            · rename_i e1 heq
              simp only [Except.error.injEq] at h
              subst h
              exact checkDest_error_ne env _ _ heq
            · split at h
              · rename_i e1 heq
                simp only [Except.error.injEq] at h
                subst h
                exact runSimulation_error_ne env _ heq
              · split at h
                · rename_i e1 heq
                  simp only [Except.error.injEq] at h
                  subst h
                  exact hsend _ heq
                · split at h
                  · rename_i e1 heq
                    simp only [Except.error.injEq] at h
                    subst h
                    exact confirmTransaction_error_ne env _ _ heq
                  · simp at h

/-- A successful transfer implies its signature came from the submission
step and the amount guard passed. -/
theorem transferTokensE_ok_inv (env : TransferEnv)
    (mints : List (String × String)) (pk toAddr : String) (amount : ℚ)
    (tokenType : String) (su : String × String)
    (h : transferTokensE env mints pk toAddr amount tokenType =
      Except.ok su) :
    env.send = Except.ok su.1 ∧ ¬ Rat.floor amount ≤ 0 := by
  unfold transferTokensE at h
  split at h
  · simp at h
  · split at h
    · simp at h
    · split at h
      · simp at h
      · split at h
        · simp at h
        · rename_i t heqAmt
          split at h
          · simp at h
          · split at h
            · simp at h
            · split at h
              · simp at h
              · split at h
                · simp at h
                · rename_i sig heqSend
                  split at h
                  · simp at h
                  · simp only [Except.ok.injEq] at h
                    subst h
                    exact ⟨heqSend, checkAmount_ok amount t heqAmt⟩

/-- C10: `transferTokens` is total as observed by callers — it always
returns a `TransferResult` (the outer catch absorbs every failure). On
every failure path the result has `success = false`, an empty
`transactionHash` and a non-empty error message; `success = true` comes
with a non-empty `transactionHash` (the submitted signature) and no error;
and a non-positive amount always fails. The hypotheses say the runtime's
own thrown messages and returned signatures are non-empty strings. -/
theorem C10_transferTokens_total_and_shaped (env : TransferEnv)
    (mints : List (String × String)) (pk toAddr : String) (amount : ℚ)
    (tokenType : String)
    (hpk : ∀ s e2, env.parsePubkey s = Except.error e2 → e2 ≠ "")
    (hsend : ∀ e2, env.send = Except.error e2 → e2 ≠ "")
    (hsig : ∀ s, env.send = Except.ok s → s ≠ "") :
    ((transferTokens env mints pk toAddr amount tokenType).success = false →
      (transferTokens env mints pk toAddr amount tokenType).transactionHash = "" ∧
      ∃ msg, (transferTokens env mints pk toAddr amount tokenType).error =
          some msg ∧ msg ≠ "") ∧
    ((transferTokens env mints pk toAddr amount tokenType).success = true →
      (transferTokens env mints pk toAddr amount tokenType).transactionHash ≠ "" ∧
      (transferTokens env mints pk toAddr amount tokenType).error = none) ∧
    (amount ≤ 0 →
      (transferTokens env mints pk toAddr amount tokenType).success = false) := by
  refine ⟨?_, ?_, ?_⟩
  · intro hf
    unfold transferTokens at hf ⊢
    rcases hE : transferTokensE env mints pk toAddr amount tokenType
      with eE | su
    · exact ⟨rfl, eE, rfl,
        transferTokensE_error_ne env mints pk toAddr amount tokenType eE
          hpk hsend hE⟩
    · rw [hE] at hf
      exact Bool.noConfusion hf
  · intro ht
    unfold transferTokens at ht ⊢
    rcases hE : transferTokensE env mints pk toAddr amount tokenType
      with eE | su
    · rw [hE] at ht
      exact Bool.noConfusion ht
    · have hinv := transferTokensE_ok_inv env mints pk toAddr amount
        tokenType su hE
      exact ⟨hsig su.1 hinv.1, rfl⟩
  · intro hle
    unfold transferTokens
    rcases hE : transferTokensE env mints pk toAddr amount tokenType
      with eE | su
    · rfl
    · exfalso
      have hinv := transferTokensE_ok_inv env mints pk toAddr amount
        tokenType su hE
      apply hinv.2
      have h1 : ¬ ((1 : ℤ) ≤ Rat.floor amount) := by
        intro hge
        have : ((1 : ℤ) : ℚ) ≤ amount := Rat.le_floor.mp hge
        push_cast at this
        linarith
      omega

/-- Concrete environment for the C10 witness: every runtime call succeeds,
the source account holds plenty of the mint's tokens, and the returned
signature is "sig1". -/
def c10env : TransferEnv :=
  { decodeBase58Key := fun _ => Except.ok "AdminPub"
    parseJsonKey := fun _ => Except.error "unused"
    parsePubkey := fun s => Except.ok s
    ata := fun _ owner => owner
    getAccount := fun _ => Except.ok
      { owner := TOKEN_PROGRAM_ID, mint := "BosonMint",
        amount := 1000000000000 }
    getAccountInfo := fun _ => Except.ok (some { owner := TOKEN_PROGRAM_ID })
    simulate := Except.ok none
    send := Except.ok "sig1"
    confirm := fun _ => Except.ok none
    network := "SolanaDevnet" }

/-- Mint table for the C10 witness. -/
def c10mints : List (String × String) := [("Boson", "BosonMint")]

theorem C10_transferTokens_total_and_shaped_witness :
    (transferTokens c10env c10mints "PK" "Dest" (mkRat 0 1) "Boson").success =
      false ∧
    (transferTokens c10env c10mints "PK" "Dest" (mkRat 5 1)
      "Boson").transactionHash ≠ "" := by
  have h0 := C10_transferTokens_total_and_shaped c10env c10mints "PK" "Dest"
    (mkRat 0 1) "Boson" (fun s e2 h => Except.noConfusion h)
    (fun e2 h => Except.noConfusion h)
    (fun s h => by injection h with h1; rw [← h1]; decide)
  have h5 := C10_transferTokens_total_and_shaped c10env c10mints "PK" "Dest"
    (mkRat 5 1) "Boson" (fun s e2 h => Except.noConfusion h)
    (fun e2 h => Except.noConfusion h)
    (fun s h => by injection h with h1; rw [← h1]; decide)
  refine ⟨h0.2.2 (by decide), (h5.2.1 (by decide)).1⟩

end Backend
